import Mathlib

/-!
Shallow embedding of `deepwalker.py` (hibernatus-hacker/deepwalker).

The embedded parts are:
* `_get_ai_analysis` (the retry/backoff inference wrapper, source lines
  153-185), modelled as a function of each attempt's stream outcome;
* `_create_analysis_prompt` (lines 147-151);
* `_structure_results` (lines 187-194);
* `analyze_file` (lines 108-145), modelled as a function of the file-read
  outcome, the core response function, and the current timestamp;
* `analyze_directory` (lines 196-222);
* the summary-printing decision of `main` (lines 382-393).

Python dicts with optional keys become structures with `Option` fields
(`none` = key absent). Exceptions become explicit outcome values: a read
either yields the file text or raises with a message, and each streaming
attempt either yields a finite chunk list or raises with a message.
-/

namespace Deepwalker

/-- Python's `str.strip()`: the string with leading and trailing
whitespace removed, modelled over the character list. -/
def pyStrip (s : String) : String :=
  String.mk
    (((s.data.dropWhile Char.isWhitespace).reverse.dropWhile
        Char.isWhitespace).reverse)

/-- Python's `s.startswith(pre)`: the character sequence of `pre` is a
prefix of that of `s`. -/
def pyStartsWith (s pre : String) : Bool :=
  List.isPrefixOf pre.data s.data

/-- One attempt's interaction with `replicate.stream`: either the stream
completes, yielding these text chunks in order (`str(event)` of each
event), or some step raises an exception whose description is `err`. -/
inductive StreamOutcome where
  | chunks (cs : List String)
  | raises (err : String)
  deriving DecidableEq, Repr

/-- `max_retries = 3` in `_get_ai_analysis` (line 155). -/
def maxRetries : Nat := 3

/-- `backoff_factor = 2` in `_get_ai_analysis` (line 157). -/
def backoffFactor : Nat := 2

/-- The sentinel failure string returned after exhausting retries
(line 185): `f"Error getting AI analysis after {max_retries} attempts: {str(e)}"`. -/
def failureSentinel (err : String) : String :=
  "Error getting AI analysis after " ++ toString maxRetries ++ " attempts: " ++ err

/-- The accumulation `response += str(event)` over the whole stream
(lines 162-172), starting from the empty string. -/
def concatChunks (cs : List String) : String :=
  cs.foldl (fun response ev => response ++ ev) ""

/-- Observable behaviour of one call to `_get_ai_analysis`:
how many network attempts were issued, the argument of each
`time.sleep` in order, and the returned value. `returned = none` models
the implicit `None` of falling off the `while` loop without returning. -/
structure RunResult where
  attemptsMade : Nat
  sleeps : List Nat
  returned : Option String
  deriving DecidableEq, Repr

/-- The `while retry_count < max_retries` loop of `_get_ai_analysis`
(lines 159-185). `retryCount` is `retry_count`; `fuel` only bounds the
recursion (the body runs at most `maxRetries` times because
`retry_count` increases on every failing iteration), and when it runs
out the result is the same fall-off-the-loop result as a false loop
condition. Each iteration issues one streaming attempt
(`outcomes retryCount`): on success the trimmed accumulated response is
returned; on an exception `retry_count` is incremented and either the
loop sleeps `backoff_factor ** retry_count` seconds and retries, or,
when attempts are exhausted, the sentinel failure string is returned. -/
def getAiAnalysisLoop (outcomes : Nat → StreamOutcome) :
    Nat → Nat → RunResult
  | 0, _ => ⟨0, [], none⟩
  | fuel + 1, retryCount =>
    if retryCount < maxRetries then
      match outcomes retryCount with
      | .chunks cs => ⟨1, [], some (pyStrip (concatChunks cs))⟩
      | .raises err =>
        if retryCount + 1 < maxRetries then
          let rest := getAiAnalysisLoop outcomes fuel (retryCount + 1)
          ⟨rest.attemptsMade + 1,
           backoffFactor ^ (retryCount + 1) :: rest.sleeps,
           rest.returned⟩
        else
          ⟨1, [], some (failureSentinel err)⟩
    else ⟨0, [], none⟩

/-- `_get_ai_analysis` (lines 153-185), starting with `retry_count = 0`. -/
def getAiAnalysis (outcomes : Nat → StreamOutcome) : RunResult :=
  getAiAnalysisLoop outcomes maxRetries 0

/-- Reading the file in `analyze_file` (lines 113-114): either the full
text returned by `file.read()`, or an exception (`str(e)` is `msg`). -/
inductive ReadOutcome where
  | ok (content : String)
  | ioError (msg : String)
  deriving DecidableEq, Repr

/-- `_create_analysis_prompt` (lines 147-151): the f-string wraps the
content between two newlines. -/
def createAnalysisPrompt (content : String) : String :=
  "\n" ++ content ++ "\n"

/-- One result dict. A key absent from the Python dict is `none`. -/
structure AnalysisResult where
  file : String
  status : String
  analysis : Option String := none
  error : Option String := none
  reason : Option String := none
  timestamp : Option String := none
  deriving DecidableEq, Repr

/-- `_structure_results` (lines 187-194); `now` is
`datetime.now().isoformat()`. -/
def structureResults (response : String) (filePath : String) (now : String) :
    AnalysisResult :=
  { file := filePath, analysis := some response, timestamp := some now,
    status := "completed" }

/-- The marker checked by `response.startswith(...)` in `analyze_file`
(line 128). -/
def errorMarker : String := "Error getting AI analysis"

/-- Result of one `analyze_file` call, instrumented with the number of
times the core `_get_ai_analysis` was invoked. -/
structure FileRunResult where
  result : AnalysisResult
  coreCalls : Nat
  deriving DecidableEq, Repr

/-- `analyze_file` (lines 108-145). `core` is `self._get_ai_analysis`
as a response function of the prompt; `read` is the outcome of opening
and reading the file; `now` is the timestamp taken by
`_structure_results`. A read exception lands in the `except` clause
(lines 141-145) before the core is ever reached; otherwise the content
is trimmed (`file.read().strip()`), the empty check (line 116) may skip,
and the core's response is classified by the error-marker check
(line 128). -/
def analyzeFile (core : String → String) (filePath : String)
    (read : ReadOutcome) (now : String) : FileRunResult :=
  match read with
  | .ioError e =>
    ⟨{ file := filePath, status := "failed", error := some e }, 0⟩
  | .ok raw =>
    let content := pyStrip raw
    if content = "" then
      ⟨{ file := filePath, status := "skipped", reason := some "empty file" }, 0⟩
    else
      let response := core (createAnalysisPrompt content)
      if pyStartsWith response errorMarker then
        ⟨{ file := filePath, status := "failed", error := some response }, 1⟩
      else
        ⟨structureResults response filePath now, 1⟩

/-- A discovered file: its path, the outcome of reading it, and the
timestamp that would be recorded were its analysis completed. -/
structure FileInput where
  path : String
  read : ReadOutcome
  now : String
  deriving DecidableEq, Repr

/-- `analyze_directory` (lines 196-222): the early return when no files
matched (lines 210-212), otherwise one `analyze_file` result appended
per file, in discovery order (lines 216-219). -/
def analyzeDirectory (core : String → String) (files : List FileInput) :
    List AnalysisResult :=
  if files.isEmpty then []
  else files.map fun f => (analyzeFile core f.path f.read f.now).result

/-- Whether `main` prints the analysis summary (lines 382-393): when
`results` is empty only a no-files message is printed; otherwise the
summary is printed because the guard is `if args.summary or True`. -/
def summaryPrinted (results : List AnalysisResult) (summaryFlag : Bool) :
    Bool :=
  if results.isEmpty then false
  else summaryFlag || true

/-! ### Helper lemmas -/

theorem analyzeDirectory_eq_map (core : String → String)
    (files : List FileInput) :
    analyzeDirectory core files =
      files.map fun f => (analyzeFile core f.path f.read f.now).result := by
  cases files <;> simp [analyzeDirectory]

theorem analyzeFile_result_invariants (core : String → String)
    (path : String) (read : ReadOutcome) (now : String) :
    ((analyzeFile core path read now).result.status = "completed" ∨
      (analyzeFile core path read now).result.status = "failed" ∨
      (analyzeFile core path read now).result.status = "skipped") ∧
    ((analyzeFile core path read now).result.analysis.isSome →
      (analyzeFile core path read now).result.status = "completed") ∧
    ((analyzeFile core path read now).result.timestamp.isSome ↔
      (analyzeFile core path read now).result.status = "completed") := by
  rcases read with raw | e
  · by_cases h : pyStrip raw = ""
    · simp [analyzeFile, h]
    · by_cases h2 :
        pyStartsWith (core (createAnalysisPrompt (pyStrip raw))) errorMarker
      · simp [analyzeFile, h, h2]
      · simp [analyzeFile, structureResults, h, h2]
  · simp [analyzeFile]

theorem getAiAnalysis_succ0 (outcomes : Nat → StreamOutcome)
    (cs : List String) (h : outcomes 0 = .chunks cs) :
    getAiAnalysis outcomes = ⟨1, [], some (pyStrip (concatChunks cs))⟩ := by
  simp [getAiAnalysis, getAiAnalysisLoop, maxRetries, h]

theorem getAiAnalysis_fail0_succ1 (outcomes : Nat → StreamOutcome)
    (e0 : String) (cs : List String)
    (h0 : outcomes 0 = .raises e0) (h1 : outcomes 1 = .chunks cs) :
    getAiAnalysis outcomes = ⟨2, [2], some (pyStrip (concatChunks cs))⟩ := by
  simp [getAiAnalysis, getAiAnalysisLoop, maxRetries, backoffFactor, h0, h1]

theorem getAiAnalysis_fail01_succ2 (outcomes : Nat → StreamOutcome)
    (e0 e1 : String) (cs : List String)
    (h0 : outcomes 0 = .raises e0) (h1 : outcomes 1 = .raises e1)
    (h2 : outcomes 2 = .chunks cs) :
    getAiAnalysis outcomes = ⟨3, [2, 4], some (pyStrip (concatChunks cs))⟩ := by
  simp [getAiAnalysis, getAiAnalysisLoop, maxRetries, backoffFactor,
    h0, h1, h2]

theorem getAiAnalysis_fail012 (outcomes : Nat → StreamOutcome)
    (e0 e1 e2 : String)
    (h0 : outcomes 0 = .raises e0) (h1 : outcomes 1 = .raises e1)
    (h2 : outcomes 2 = .raises e2) :
    getAiAnalysis outcomes = ⟨3, [2, 4], some (failureSentinel e2)⟩ := by
  simp [getAiAnalysis, getAiAnalysisLoop, maxRetries, backoffFactor,
    h0, h1, h2]

/-! ### Claim theorems -/

/-- C1: when every attempt raises, `_get_ai_analysis` makes exactly 3
attempts, sleeps 2 then 4 seconds between consecutive attempts
(`backoff_factor ^ retry_count` with `retry_count` 1 then 2), and
returns the sentinel failure string naming the attempt count 3 and the
last error's description. -/
theorem retry_exhaustion_three_attempts (e : Nat → String) :
    getAiAnalysis (fun n => .raises (e n)) =
      ⟨3, [2 ^ 1, 2 ^ 2],
       some ("Error getting AI analysis after 3 attempts: " ++ e 2)⟩ := by
  rfl

/-- C2: on a successful stream — the attempt at index `k`, every earlier
attempt having raised — `_get_ai_analysis` returns the concatenation of
the chunks in arrival order, trimmed of leading and trailing
whitespace. -/
theorem stream_success_returns_trimmed_concat
    (outcomes : Nat → StreamOutcome) (k : Nat) (cs : List String)
    (hk : k < maxRetries) (hsucc : outcomes k = .chunks cs)
    (hfail : ∀ j, j < k → ∃ err, outcomes j = .raises err) :
    (getAiAnalysis outcomes).returned = some (pyStrip (concatChunks cs)) := by
  have hk3 : k < 3 := hk
  interval_cases k
  · simp [getAiAnalysis, getAiAnalysisLoop, maxRetries, hsucc]
  · obtain ⟨e0, h0⟩ := hfail 0 (by decide)
    simp [getAiAnalysis, getAiAnalysisLoop, maxRetries, h0, hsucc]
  · obtain ⟨e0, h0⟩ := hfail 0 (by decide)
    obtain ⟨e1, h1⟩ := hfail 1 (by decide)
    simp [getAiAnalysis, getAiAnalysisLoop, maxRetries, h0, h1, hsucc]

/-- Witness for C2: the first attempt raises, the second succeeds with
chunks `[" a", "b "]`, and the returned text is `"ab"` — the trimmed
concatenation. -/
theorem stream_success_returns_trimmed_concat_witness :
    (1 < maxRetries ∧
      (fun n => if n = 0 then .raises "boom"
        else StreamOutcome.chunks [" a", "b "]) 1 =
        StreamOutcome.chunks [" a", "b "]) ∧
    (getAiAnalysis (fun n => if n = 0 then .raises "boom"
        else StreamOutcome.chunks [" a", "b "])).returned = some "ab" :=
  ⟨⟨by decide, by decide⟩,
    stream_success_returns_trimmed_concat
      (fun n => if n = 0 then .raises "boom"
        else StreamOutcome.chunks [" a", "b "])
      1 [" a", "b "] (by decide) (by decide)
      (fun j hj => ⟨"boom", by interval_cases j; rfl⟩)⟩

/-- C3: a file whose content is empty after trimming is skipped with
reason "empty file", and the core is never invoked. -/
theorem empty_file_skipped_no_core_call (core : String → String)
    (filePath raw now : String) (h : pyStrip raw = "") :
    analyzeFile core filePath (.ok raw) now =
      ⟨{ file := filePath, status := "skipped",
         reason := some "empty file" }, 0⟩ := by
  simp [analyzeFile, h]

/-- Witness for C3: a whitespace-only file is skipped and the core call
count is 0. -/
theorem empty_file_skipped_no_core_call_witness :
    pyStrip "  \n" = "" ∧
    analyzeFile (fun _ => "resp") "a.py" (.ok "  \n") "t0" =
      ⟨{ file := "a.py", status := "skipped",
         reason := some "empty file" }, 0⟩ :=
  ⟨by decide,
    empty_file_skipped_no_core_call (fun _ => "resp") "a.py" "  \n" "t0"
      (by decide)⟩

/-- C4: `analyze_directory` produces exactly one result per discovered
file, in discovery order (the result at index `i` is `analyze_file` of
the file at index `i`); every result's status is exactly one of
completed, failed, skipped; and the analysis text is present only when
the status is completed. -/
theorem directory_one_result_per_file (core : String → String)
    (files : List FileInput) :
    (analyzeDirectory core files).length = files.length ∧
    (∀ i : Nat, (analyzeDirectory core files)[i]? =
      (files[i]?).map fun f => (analyzeFile core f.path f.read f.now).result) ∧
    ∀ r ∈ analyzeDirectory core files,
      (r.status = "completed" ∨ r.status = "failed" ∨ r.status = "skipped") ∧
      (r.analysis.isSome → r.status = "completed") := by
  refine ⟨?_, ?_, ?_⟩
  · rw [analyzeDirectory_eq_map, List.length_map]
  · intro i
    rw [analyzeDirectory_eq_map, List.getElem?_map]
  · intro r hr
    rw [analyzeDirectory_eq_map] at hr
    obtain ⟨f, _, rfl⟩ := List.mem_map.mp hr
    exact ⟨(analyzeFile_result_invariants core f.path f.read f.now).1,
      (analyzeFile_result_invariants core f.path f.read f.now).2.1⟩

/-- Witness for C4: a one-file directory yields one result, whose status
is among the three values. -/
theorem directory_one_result_per_file_witness :
    (analyzeDirectory (fun _ => "ok") [⟨"a.py", .ok "x", "t0"⟩]).length =
      ([⟨"a.py", .ok "x", "t0"⟩] : List FileInput).length ∧
    structureResults "ok" "a.py" "t0" ∈
      analyzeDirectory (fun _ => "ok") [⟨"a.py", .ok "x", "t0"⟩] ∧
    ((structureResults "ok" "a.py" "t0").status = "completed" ∨
      (structureResults "ok" "a.py" "t0").status = "failed" ∨
      (structureResults "ok" "a.py" "t0").status = "skipped") :=
  ⟨(directory_one_result_per_file (fun _ => "ok")
      [⟨"a.py", .ok "x", "t0"⟩]).1,
   by decide,
   ((directory_one_result_per_file (fun _ => "ok")
      [⟨"a.py", .ok "x", "t0"⟩]).2.2
      (structureResults "ok" "a.py" "t0") (by decide)).1⟩

/-- C5 counterexample: the claim says every AnalysisResult contains a
timestamp; the skipped result produced for an empty file has none (the
dict built at line 118 has only file, status and reason keys). -/
theorem skipped_result_lacks_timestamp :
    ((analyzeFile (fun _ => "resp") "a.py" (.ok "") "t0").result).status =
        "skipped" ∧
    ((analyzeFile (fun _ => "resp") "a.py" (.ok "") "t0").result).timestamp =
        none := by
  decide

/-- C5 amended: an AnalysisResult produced by `analyze_directory`
carries a timestamp iff its status is completed (only
`_structure_results` adds one; failed and skipped results have none). -/
theorem timestamp_present_iff_completed (core : String → String)
    (files : List FileInput) (r : AnalysisResult)
    (hr : r ∈ analyzeDirectory core files) :
    r.timestamp.isSome ↔ r.status = "completed" := by
  rw [analyzeDirectory_eq_map] at hr
  obtain ⟨f, _, rfl⟩ := List.mem_map.mp hr
  exact (analyzeFile_result_invariants core f.path f.read f.now).2.2

/-- Witness for the amended C5: the completed result of a one-file run
has a timestamp, and it is completed. -/
theorem timestamp_present_iff_completed_witness :
    (structureResults "ok" "a.py" "t0" ∈
      analyzeDirectory (fun _ => "ok") [⟨"a.py", .ok "x", "t0"⟩]) ∧
    ((structureResults "ok" "a.py" "t0").timestamp.isSome ↔
      (structureResults "ok" "a.py" "t0").status = "completed") :=
  ⟨by decide,
    timestamp_present_iff_completed (fun _ => "ok")
      [⟨"a.py", .ok "x", "t0"⟩] (structureResults "ok" "a.py" "t0")
      (by decide)⟩

/-- C6: for a readable, non-empty file, `analyze_file` classifies the
core's response as a failure exactly when it starts with
"Error getting AI analysis": a marker-prefixed response becomes a
failed result carrying the response as error text, any other response a
completed result carrying it as analysis text. -/
theorem failure_classified_by_marker (core : String → String)
    (filePath raw now : String) (h : ¬ pyStrip raw = "") :
    (analyzeFile core filePath (.ok raw) now).result =
      if pyStartsWith (core (createAnalysisPrompt (pyStrip raw))) errorMarker
      then { file := filePath, status := "failed",
             error := some (core (createAnalysisPrompt (pyStrip raw))) }
      else { file := filePath, status := "completed",
             analysis := some (core (createAnalysisPrompt (pyStrip raw))),
             timestamp := some now } := by
  by_cases h2 :
      pyStartsWith (core (createAnalysisPrompt (pyStrip raw))) errorMarker
  · simp [analyzeFile, h, h2]
  · simp [analyzeFile, structureResults, h, h2]

/-- Witness for C6: a response not starting with the marker is recorded
as completed with the response as analysis text. -/
theorem failure_classified_by_marker_witness :
    (¬ pyStrip "code" = "") ∧
    (analyzeFile (fun _ => "fine") "a.py" (.ok "code") "t0").result =
      (if pyStartsWith ((fun _ => "fine") (createAnalysisPrompt
            (pyStrip "code"))) errorMarker
       then { file := "a.py", status := "failed",
              error := some ((fun _ => "fine") (createAnalysisPrompt
                (pyStrip "code"))) }
       else { file := "a.py", status := "completed",
              analysis := some ((fun _ => "fine") (createAnalysisPrompt
                (pyStrip "code"))),
              timestamp := some "t0" }) :=
  ⟨by decide,
    failure_classified_by_marker (fun _ => "fine") "a.py" "code" "t0"
      (by decide)⟩

/-- C7: whatever the attempts' outcomes, `_get_ai_analysis` makes at
most 3 attempts and returns a string — a trimmed successful stream text
or the sentinel failure string; the fall-off-the-loop `None` path is
never taken. -/
theorem analysis_terminates_with_string (outcomes : Nat → StreamOutcome) :
    (getAiAnalysis outcomes).attemptsMade ≤ 3 ∧
    ∃ s, (getAiAnalysis outcomes).returned = some s ∧
      ((∃ k, ∃ cs, k < 3 ∧ outcomes k = StreamOutcome.chunks cs ∧
          s = pyStrip (concatChunks cs)) ∨
        ∃ err, s = failureSentinel err) := by
  rcases h0 : outcomes 0 with cs0 | e0
  · rw [getAiAnalysis_succ0 outcomes cs0 h0]
    exact ⟨by norm_num, pyStrip (concatChunks cs0), rfl,
      Or.inl ⟨0, cs0, by norm_num, h0, rfl⟩⟩
  · rcases h1 : outcomes 1 with cs1 | e1
    · rw [getAiAnalysis_fail0_succ1 outcomes e0 cs1 h0 h1]
      exact ⟨by norm_num, pyStrip (concatChunks cs1), rfl,
        Or.inl ⟨1, cs1, by norm_num, h1, rfl⟩⟩
    · rcases h2 : outcomes 2 with cs2 | e2
      · rw [getAiAnalysis_fail01_succ2 outcomes e0 e1 cs2 h0 h1 h2]
        exact ⟨by norm_num, pyStrip (concatChunks cs2), rfl,
          Or.inl ⟨2, cs2, by norm_num, h2, rfl⟩⟩
      · rw [getAiAnalysis_fail012 outcomes e0 e1 e2 h0 h1 h2]
        exact ⟨by norm_num, failureSentinel e2, rfl, Or.inr ⟨e2, rfl⟩⟩

/-- C8: a file whose read raises is recorded as a failed result carrying
the error text, and `analyze_directory` still processes every file in
the list (one result per file, each the `analyze_file` of that file). -/
theorem read_error_failed_and_run_continues (core : String → String)
    (files : List FileInput) (i : Nat) (f : FileInput) (e : String)
    (hf : files[i]? = some f) (he : f.read = .ioError e) :
    (analyzeDirectory core files)[i]? =
      some { file := f.path, status := "failed", error := some e } ∧
    (analyzeDirectory core files).length = files.length ∧
    ∀ j : Nat, (analyzeDirectory core files)[j]? =
      (files[j]?).map fun g => (analyzeFile core g.path g.read g.now).result := by
  refine ⟨?_, ?_, ?_⟩
  · rw [analyzeDirectory_eq_map, List.getElem?_map, hf]
    simp [analyzeFile, he]
  · rw [analyzeDirectory_eq_map, List.length_map]
  · intro j
    rw [analyzeDirectory_eq_map, List.getElem?_map]

/-- Witness for C8: with an unreadable first file and a readable second,
the first result is failed with the error text and both files produce a
result. -/
theorem read_error_failed_and_run_continues_witness :
    ([⟨"bad.py", .ioError "denied", "t0"⟩,
      ⟨"good.py", .ok "x", "t1"⟩] : List FileInput)[0]? =
        some ⟨"bad.py", .ioError "denied", "t0"⟩ ∧
    (⟨"bad.py", .ioError "denied", "t0"⟩ : FileInput).read =
        .ioError "denied" ∧
    (analyzeDirectory (fun _ => "ok")
        [⟨"bad.py", .ioError "denied", "t0"⟩,
         ⟨"good.py", .ok "x", "t1"⟩])[0]? =
      some { file := "bad.py", status := "failed",
             error := some "denied" } ∧
    (analyzeDirectory (fun _ => "ok")
        [⟨"bad.py", .ioError "denied", "t0"⟩,
         ⟨"good.py", .ok "x", "t1"⟩]).length =
      ([⟨"bad.py", .ioError "denied", "t0"⟩,
        ⟨"good.py", .ok "x", "t1"⟩] : List FileInput).length :=
  ⟨by decide, by decide,
    (read_error_failed_and_run_continues (fun _ => "ok")
      [⟨"bad.py", .ioError "denied", "t0"⟩, ⟨"good.py", .ok "x", "t1"⟩]
      0 ⟨"bad.py", .ioError "denied", "t0"⟩ "denied"
      (by decide) (by decide)).1,
    (read_error_failed_and_run_continues (fun _ => "ok")
      [⟨"bad.py", .ioError "denied", "t0"⟩, ⟨"good.py", .ok "x", "t1"⟩]
      0 ⟨"bad.py", .ioError "denied", "t0"⟩ "denied"
      (by decide) (by decide)).2.1⟩

/-- C9 counterexample: the claim says every run prints the summary; in a
run that produced no results, `main` takes the no-files branch (line
384) and prints no summary even when the summary flag was supplied. -/
theorem no_summary_when_no_results :
    summaryPrinted [] true = false := by
  decide

/-- C9 amended: whenever at least one result was produced, `main` prints
the summary regardless of the summary flag, and the flag's value never
affects whether the summary is printed. -/
theorem summary_flag_has_no_effect (results : List AnalysisResult)
    (flag flag2 : Bool) (h : results ≠ []) :
    summaryPrinted results flag = true ∧
    summaryPrinted results flag = summaryPrinted results flag2 := by
  simp [summaryPrinted, List.isEmpty_iff, h]

/-- Witness for the amended C9: one completed result, summary flag off,
summary still printed. -/
theorem summary_flag_has_no_effect_witness :
    ([structureResults "ok" "a.py" "t0"] ≠ ([] : List AnalysisResult)) ∧
    summaryPrinted [structureResults "ok" "a.py" "t0"] false = true :=
  ⟨by decide,
    (summary_flag_has_no_effect [structureResults "ok" "a.py" "t0"]
      false true (by decide)).1⟩

/-- A stream in which the model itself emits a text that begins with the
error marker; every attempt succeeds. -/
def mockOutcomes : Nat → StreamOutcome :=
  fun _ => .chunks ["Error getting AI analysis: mock"]

/-- The response `analyze_file` receives from `_get_ai_analysis` on
`mockOutcomes` (by `analysis_terminates_with_string` the returned value
is never `none`, so the `getD` default is never used). -/
def mockCore : String → String :=
  fun _ => ((getAiAnalysis mockOutcomes).returned).getD ""

/-- C10: a successful stream (one attempt, no error raised, no sleep)
whose chunks concatenate to a text beginning with
"Error getting AI analysis" is misclassified: `analyze_file` records a
failed result carrying the model's own output as the error text. -/
theorem model_output_mistaken_for_failure :
    getAiAnalysis mockOutcomes =
      ⟨1, [], some "Error getting AI analysis: mock"⟩ ∧
    (analyzeFile mockCore "a.py" (.ok "print(1)") "t0").result =
      { file := "a.py", status := "failed",
        error := some "Error getting AI analysis: mock" } := by
  decide

end Deepwalker
